import Mathlib

/-!
Shallow embedding of the momopy MTN MoMo client library (`src/mtn`), covering
the credential/token manager in `base.py`, the collection dispatcher in
`collections/collection.py`, the sandbox provisioning flow in
`sandbox/sandbox.py`, and the exception type in `utils/exceptions.py`.

Modelling conventions:
* Python `datetime` values are `Nat` ticks (seconds); `datetime.now()` is an
  explicit `now` parameter, `timedelta(seconds = n)` is `+ n`.
* Python optional strings are `Option String`; `none` models Python `None`.
* Python truthiness of such a field (`if self._token:`) is `strTruthy`:
  `None` and the empty string are falsy.
* Network traffic is modelled by oracles (pure functions from a call counter
  to the remote's response) plus a `NetTrace` recording how many requests of
  each kind were issued; fresh `uuid4()` / `uuid1()` draws come from a
  `UuidSupply` stream indexed by a counter in the trace.
* Functions whose Python original can recurse unboundedly take a `fuel`
  argument and return `none` when it is exhausted.
-/

/-- Python truthiness of an optional string: `None` and `""` are falsy. -/
def strTruthy : Option String → Bool
  | none => false
  | some s => !s.isEmpty

/-- Python `str(...)` applied to an optional string (`str(None) = "None"`),
as used by f-string interpolation such as `f"Bearer {self.token}"`. -/
def pyStr : Option String → String
  | none => "None"
  | some s => s

/-- The mutable credential state of `Base` (`base.py`, `__init__`): the
cached token, its expiry time, the api user/key, the subscription key, the
flag remembering whether `api_user` was passed to the constructor, the
configuration strings, and the instance headers.  Header values are
`Option String` (`none` models a Python `None` dict value). -/
structure BaseState where
  tok : Option String
  tokenExpiryTime : Option Nat
  apiUser : Option String
  apiKey : Option String
  subscriptionKey : Option String
  apiUserProvided : Bool
  baseUrl : String
  environment : String
  callbackHost : String
  headers : List (String × Option String)
  deriving Repr, DecidableEq

/-- Keyword arguments accepted by `Base.__init__`.  For `api_user` the outer
`Option` records whether the key was present in `kwargs` at all (the source
tracks this via `'api_user' in kwargs`); the inner `Option` is its value. -/
structure InitKwargs where
  api_user : Option (Option String) := none
  api_key : Option String := none
  subscription_key : Option String := none
  base_url : Option String := none
  environment : Option String := none
  callback_host : Option String := none
  deriving Repr

namespace Base

/-- `Base.__init__(token=None, **kwargs)` (`base.py` lines 14-43): record the
credentials, leave `_token_expiry_time = None`, and assemble the instance
headers, adding `Ocp-Apim-Subscription-Key` only when the subscription key is
truthy and `Authorization: Bearer <token>` only when the token is truthy. -/
def init (token : Option String) (kw : InitKwargs) : BaseState :=
  let subKey := kw.subscription_key
  let env := kw.environment.getD "sandbox"
  let h0 : List (String × Option String) :=
    [("Content-Type", some "application/json"),
     ("X-Target-Environment", some env)]
  let h1 := if strTruthy subKey then h0 ++ [("Ocp-Apim-Subscription-Key", subKey)] else h0
  let h2 := if strTruthy token then
      h1 ++ [("Authorization", some ("Bearer " ++ pyStr token))]
    else h1
  { tok := token
    tokenExpiryTime := none
    apiUser := kw.api_user.getD none
    apiKey := kw.api_key
    subscriptionKey := kw.subscription_key
    apiUserProvided := kw.api_user.isSome
    baseUrl := kw.base_url.getD "https://sandbox.momodeveloper.mtn.com"
    environment := env
    callbackHost := kw.callback_host.getD "webhook.site"
    headers := h2 }

/-- The `Base.token` property (`base.py` lines 45-50): return the cached
token when `self._token` is truthy, an expiry time is recorded, and the
expiry lies strictly after `datetime.now()`; otherwise `None`. -/
def token (s : BaseState) (now : Nat) : Option String :=
  match s.tok, s.tokenExpiryTime with
  | some t, some e => if !t.isEmpty && now < e then some t else none
  | _, _ => none

end Base

/-- Record of the network requests a run has issued, together with the
consumption counters for the uuid streams.  `postedRefIds` lists, in order,
the `X-Reference-Id` header values of every `POST /v1_0/apiuser` issued. -/
structure NetTrace where
  uuid4s : Nat := 0
  uuid1s : Nat := 0
  userGets : Nat := 0
  userPosts : Nat := 0
  postedRefIds : List String := []
  keyPosts : Nat := 0
  tokenPosts : Nat := 0
  rtpPosts : Nat := 0
  balGets : Nat := 0
  deriving Repr, DecidableEq

/-- Streams of fresh identifiers: `uuid4 i` is the value of the `i`-th
`uuid.uuid4()` call, `uuid1 i` of the `i`-th `uuid.uuid1()` call. -/
structure UuidSupply where
  uuid4 : Nat → String
  uuid1 : Nat → String

/-- Remote behaviour for the api-user endpoints of `base.py`:
`getStatus i` is the HTTP status of the `i`-th `GET /v1_0/apiuser/{id}`
existence check, `postStatus i` of the `i`-th `POST /v1_0/apiuser`. -/
structure UserOracle where
  getStatus : Nat → Nat
  postStatus : Nat → Nat

/-- Remote behaviour for `POST /v1_0/apiuser/{id}/apikey`: HTTP status and
the `apiKey` field of the JSON body of the `i`-th call. -/
structure KeyOracle where
  status : Nat → Nat
  apiKey : Nat → Option String

/-- Remote behaviour for `POST /{product}/token/`: HTTP status and the
`access_token` / `expires_in` fields of the JSON body of the `i`-th call. -/
structure TokenOracle where
  status : Nat → Nat
  accessTok : Nat → Option String
  expiresIn : Nat → Nat

namespace Base

/-- `Base.check_api_user_exists` (`base.py` lines 67-96): one GET against
`/v1_0/apiuser/{id}`; `True` exactly on status 200 (404 and every other
status, like any exception, yield `False`). -/
def checkApiUserExists (o : UserOracle) (tr : NetTrace) : Bool × NetTrace :=
  let st := o.getStatus tr.userGets
  (st == 200, { tr with userGets := tr.userGets + 1 })

/-- First phase of `Base._create_api_user` (`base.py` lines 103-114): with a
truthy `self._api_user`, run the existence check and return `True` early if
the user exists (keeping the id otherwise); with no api user, draw a fresh
`uuid4` and store it.  `Sum.inl` is an early return, `Sum.inr` the state and
trace with which the creation POST proceeds. -/
def createApiUserPre (u : UuidSupply) (o : UserOracle) (s : BaseState)
    (tr : NetTrace) : (Bool × BaseState × NetTrace) ⊕ (BaseState × NetTrace) :=
  if strTruthy s.apiUser then
    let r := checkApiUserExists o tr
    if r.1 then .inl (true, s, r.2) else .inr (s, r.2)
  else
    let uid := u.uuid4 tr.uuid4s
    .inr ({ s with apiUser := some uid }, { tr with uuid4s := tr.uuid4s + 1 })

/-- `Base._create_api_user` (`base.py` lines 98-153).  After the pre-phase,
POST `/v1_0/apiuser` with `X-Reference-Id = self._api_user`: 201 returns
`True`; 409 returns `False` when the api user was caller-supplied and
otherwise recurses into the whole method with the state unchanged (note: the
source prints "Generating new UUID..." but mutates nothing before the
recursive call); 401, 400 and every other status return `False`.  The
Python recursion is unbounded, hence the fuel: `none` models exhausting it. -/
def createApiUser (u : UuidSupply) (o : UserOracle) (subscriptionKey : String) :
    Nat → BaseState → NetTrace → Option (Bool × BaseState × NetTrace)
  | 0, _, _ => none
  | fuel + 1, s, tr =>
    match createApiUserPre u o s tr with
    | .inl r => some r
    | .inr (s1, tr1) =>
      let refId := pyStr s1.apiUser
      let st := o.postStatus tr1.userPosts
      let tr2 := { tr1 with
        userPosts := tr1.userPosts + 1
        postedRefIds := tr1.postedRefIds ++ [refId] }
      if st == 201 then some (true, s1, tr2)
      else if st == 409 then
        if s1.apiUserProvided then some (false, s1, tr2)
        else createApiUser u o subscriptionKey fuel s1 tr2
      else
        -- 401, 400 and the catch-all branch all print and return False
        some (false, s1, tr2)

/-- `Base._create_api_key` (`base.py` lines 155-194): with no truthy api
user, return `False` without any request; with a truthy cached api key,
return `True` without any request; otherwise POST the key endpoint once, on
201 cache the body's `apiKey` field and return `True`, on 400, 404 or any
other status return `False`. -/
def createApiKey (o : KeyOracle) (s : BaseState) (tr : NetTrace) :
    Bool × BaseState × NetTrace :=
  if !strTruthy s.apiUser then (false, s, tr)
  else if strTruthy s.apiKey then (true, s, tr)
  else
    let i := tr.keyPosts
    let tr1 := { tr with keyPosts := i + 1 }
    if o.status i == 201 then (true, { s with apiKey := o.apiKey i }, tr1)
    else (false, s, tr1)

/-- `n`-fold iteration of `Base._create_api_key` on a state/trace pair,
discarding the returned booleans. -/
def createApiKeyIter (o : KeyOracle) : Nat → BaseState × NetTrace → BaseState × NetTrace
  | 0, p => p
  | n + 1, p =>
    let r := createApiKey o p.1 p.2
    createApiKeyIter o n (r.2.1, r.2.2)

/-- `Base._generate_token` (`base.py` lines 196-228): with the api user or
api key missing (falsy), return `None` without any request; otherwise POST
the product token endpoint once.  On 200, cache the body's `access_token`
and set the expiry to `datetime.now() + timedelta(seconds = expires_in)`,
returning the token; on 500 / `login_failed` and on every other status
return `None`.  The oracle models a well-formed JSON body whose
`expires_in` parses as an integer. -/
def generateToken (o : TokenOracle) (subscriptionKey product : String)
    (now : Nat) (s : BaseState) (tr : NetTrace) :
    Option String × BaseState × NetTrace :=
  if !(strTruthy s.apiUser && strTruthy s.apiKey) then (none, s, tr)
  else
    let i := tr.tokenPosts
    let tr1 := { tr with tokenPosts := i + 1 }
    if o.status i == 200 then
      let t := o.accessTok i
      (t, { s with tok := t, tokenExpiryTime := some (now + o.expiresIn i) }, tr1)
    else (none, s, tr1)

end Base

/-- Result of a Python call that can either return a value or raise
`ValueError` (`raise ValueError("Subscription key is required ...")`). -/
inductive PyResult (α : Type) where
  | ok : α → PyResult α
  | valueError : PyResult α
  deriving Repr, DecidableEq

/-- Remote behaviour for `POST /collection/v1_0/requesttopay`: HTTP status
of the `i`-th call and the `message` field its JSON body would yield
(inspected only in the 500 branch). -/
structure RtpOracle where
  status : Nat → Nat
  message : Nat → String

/-- Remote behaviour for `GET /collection/v1_0/account/balance`: HTTP status
and an opaque rendering of the JSON body of the `i`-th call. -/
structure BalOracle where
  status : Nat → Nat
  body : Nat → String

namespace Collection

/-- `Collection.create_api_key` (`collection.py` lines 84-121) with the
subscription key already resolved to a truthy string by the caller: run
`Base._create_api_user`, and on failure return `None`; then run
`Base._create_api_key`, returning the cached `self._api_key` on success and
`None` on failure.  Fuel as in `Base.createApiUser`. -/
def createApiKey (u : UuidSupply) (uo : UserOracle) (ko : KeyOracle)
    (subscriptionKey : String) (fuel : Nat) (s : BaseState) (tr : NetTrace) :
    Option (Option String × BaseState × NetTrace) :=
  match Base.createApiUser u uo subscriptionKey fuel s tr with
  | none => none
  | some (false, s1, tr1) => some (none, s1, tr1)
  | some (true, s1, tr1) =>
    let r := Base.createApiKey ko s1 tr1
    if r.1 then some (r.2.1.apiKey, r.2.1, r.2.2) else some (none, r.2.1, r.2.2)

/-- `Collection.generate_collection_token` (`collection.py` lines 123-170):
resolve the subscription key (`ValueError` when the resolved key is falsy);
when `self._token` is truthy and the `Base.token` property still reports it
valid, return it with no network traffic; otherwise, when no truthy api key
is cached, run `Collection.create_api_key` first and return `None` when the
key it returns is falsy; finally run `Base._generate_token` for product
`"collection"`, store and return a truthy result, `None` otherwise. -/
def generateCollectionToken (u : UuidSupply) (uo : UserOracle) (ko : KeyOracle)
    (tko : TokenOracle) (now : Nat) (subArg : Option String) (fuel : Nat)
    (s : BaseState) (tr : NetTrace) :
    Option (PyResult (Option String) × BaseState × NetTrace) :=
  let sub := if strTruthy subArg then subArg else s.subscriptionKey
  if !strTruthy sub then some (.valueError, s, tr)
  else if strTruthy s.tok && (Base.token s now).isSome then
    some (.ok s.tok, s, tr)
  else
    let subs := pyStr sub
    let keyStep : Option (Bool × BaseState × NetTrace) :=
      if !strTruthy s.apiKey then
        match createApiKey u uo ko subs fuel s tr with
        | none => none
        | some (k, s1, tr1) => some (strTruthy k, s1, tr1)
      else some (true, s, tr)
    match keyStep with
    | none => none
    | some (false, s1, tr1) => some (.ok none, s1, tr1)
    | some (true, s1, tr1) =>
      let r := Base.generateToken tko subs "collection" now s1 tr1
      if strTruthy r.1 then some (.ok r.1, { r.2.1 with tok := r.1 }, r.2.2)
      else some (.ok none, r.2.1, r.2.2)

/-- Two immediately consecutive calls of
`Collection.generate_collection_token` (the same `now`, the second starting
from the state and trace the first left behind), returning both results and
the final state and trace. -/
def generateCollectionTokenTwice (u : UuidSupply) (uo : UserOracle)
    (ko : KeyOracle) (tko : TokenOracle) (now : Nat) (subArg : Option String)
    (fuel : Nat) (s : BaseState) (tr : NetTrace) :
    Option (PyResult (Option String) × PyResult (Option String) × BaseState × NetTrace) :=
  match generateCollectionToken u uo ko tko now subArg fuel s tr with
  | none => none
  | some (r1, s1, tr1) =>
    match generateCollectionToken u uo ko tko now subArg fuel s1 tr1 with
    | none => none
    | some (r2, s2, tr2) => some (r1, r2, s2, tr2)

/-- `Collection.create_request_to_pay` (`collection.py` lines 172-255):
draw a fresh `uuid4` as the request reference id, assemble the headers
(including `X-Reference-Id` and, when a callback URL is given,
`X-Callback-Url`), draw a `uuid1` for the body's `externalId`, and POST.
On 202 return the reference id; on 404, 400, each 500 sub-branch and every
other status return `None`.  The second component is the header list the
request was issued with. -/
def createRequestToPay (u : UuidSupply) (o : RtpOracle) (now : Nat)
    (msisdn amount : String) (subArg callbackUrl : Option String)
    (s : BaseState) (tr : NetTrace) :
    Option String × List (String × Option String) × NetTrace :=
  let refId := u.uuid4 tr.uuid4s
  let tr1 := { tr with uuid4s := tr.uuid4s + 1 }
  let hs : List (String × Option String) :=
    [("X-Reference-Id", some refId),
     ("X-Target-Environment", some s.environment),
     ("Ocp-Apim-Subscription-Key", if strTruthy subArg then subArg else s.subscriptionKey),
     ("Authorization", some ("Bearer " ++ pyStr (Base.token s now))),
     ("Content-Type", some "application/json")]
    ++ (if strTruthy callbackUrl then [("X-Callback-Url", callbackUrl)] else [])
  let tr2 := { tr1 with uuid1s := tr1.uuid1s + 1 }
  let st := o.status tr2.rtpPosts
  let tr3 := { tr2 with rtpPosts := tr2.rtpPosts + 1 }
  -- on 202 the reference id is returned; 404, 400, the three 500
  -- sub-branches (INVALID_CALLBACK_URL_HOST, "Currency not supported.",
  -- other) and the catch-all each print a diagnostic and return None
  ((if st == 202 then some refId else none), hs, tr3)

/-- The header list `Collection.get_account_balance` (`collection.py` lines
271-277) sends: target environment, subscription key, bearer token and
content type — no `X-Reference-Id`. -/
def getAccountBalanceHeaders (s : BaseState) (now : Nat) :
    List (String × Option String) :=
  [("X-Target-Environment", some s.environment),
   ("Ocp-Apim-Subscription-Key", s.subscriptionKey),
   ("Authorization", some ("Bearer " ++ pyStr (Base.token s now))),
   ("Content-Type", some "application/json")]

/-- `Collection.get_account_balance` (`collection.py` lines 257-298): with
no valid token, return `None` issuing no request; otherwise GET the balance
endpoint once with `getAccountBalanceHeaders`, returning the body on 200 and
`None` on 401, 404 or any other status. -/
def getAccountBalance (o : BalOracle) (now : Nat) (s : BaseState)
    (tr : NetTrace) : Option String × NetTrace :=
  if Base.token s now = none then (none, tr)
  else
    let i := tr.balGets
    let tr1 := { tr with balGets := i + 1 }
    if o.status i == 200 then (some (o.body i), tr1) else (none, tr1)

end Collection

/-- `MoMoAPIError` (`utils/exceptions.py` lines 2-10): the typed API error
of the library, carrying a status code, an error message and optional
details.  Defined in the source but raised nowhere under `src/mtn`; the
collection dispatcher's failure branches return `None` instead. -/
structure MoMoAPIError where
  status_code : Nat
  error_message : String
  details : Option String
  deriving Repr, DecidableEq

/-- `MoMoAPIError.__str__`. -/
def MoMoAPIError.render (e : MoMoAPIError) : String :=
  "HTTP " ++ toString e.status_code ++ ": " ++ e.error_message
    ++ "\nDetails: " ++ pyStr e.details



/-- An exception a `sandbox.py` provisioning call can raise:
`requests.raise_for_status` (`httpError`), the `ValueError` for an invalid
product, indexing `None` (`typeError`), or a missing dict key (`keyError`). -/
inductive SbError where
  | httpError (status : Nat)
  | valueError (product : String)
  | typeError
  | keyError
  deriving Repr, DecidableEq

/-- Remote behaviour for the three `sandbox.py` endpoints: statuses of the
`i`-th user-creation, key-generation and token POSTs, plus the `apiKey` /
`access_token` fields of the respective JSON bodies. -/
structure SbOracle where
  createUserStatus : Nat → Nat
  keyStatus : Nat → Nat
  keyApiKey : Nat → Option String
  tokStatus : Nat → Nat
  tokAccess : Nat → Option String

/-- Network-call counters of one `sandbox.py` run. -/
structure SbTrace where
  uuid4s : Nat := 0
  userPosts : Nat := 0
  keyPosts : Nat := 0
  tokPosts : Nat := 0
  deriving Repr, DecidableEq

namespace Sandbox

/-- `Sandbox.create_api_user` (`sandbox.py` lines 20-55): POST
`/v1_0/apiuser` with a fresh `uuid4` as `X-Reference-Id`;
`raise_for_status` raises on any 4xx/5xx; on 201 return the dict holding the
reference id, on any other non-error status return `None`. -/
def createApiUser (u : UuidSupply) (o : SbOracle) (tr : SbTrace) :
    Except SbError (Option String) × SbTrace :=
  let rid := u.uuid4 tr.uuid4s
  let i := tr.userPosts
  let tr1 := { tr with uuid4s := tr.uuid4s + 1, userPosts := i + 1 }
  let st := o.createUserStatus i
  if 400 ≤ st then (.error (.httpError st), tr1)
  else if st == 201 then (.ok (some rid), tr1)
  else (.ok none, tr1)

/-- `Sandbox.generate_api_key` (`sandbox.py` lines 57-82): POST the api-key
endpoint for the given reference id; `raise_for_status` raises on 4xx/5xx,
otherwise the JSON body (abstracted to its `apiKey` field) is returned. -/
def generateApiKey (o : SbOracle) (referenceId : String) (tr : SbTrace) :
    Except SbError (Option String) × SbTrace :=
  let i := tr.keyPosts
  let tr1 := { tr with keyPosts := i + 1 }
  let st := o.keyStatus i
  if 400 ≤ st then (.error (.httpError st), tr1)
  else (.ok (o.keyApiKey i), tr1)

/-- `Sandbox.generate_token` (`sandbox.py` lines 84-122): look the product
up in the endpoint table, raising `ValueError` (with no network call) when
it is unknown; otherwise POST the token endpoint with Basic auth;
`raise_for_status` raises on 4xx/5xx, otherwise the JSON body (abstracted to
its `access_token` field) is returned. -/
def generateToken (o : SbOracle) (apiUser apiKey product subscriptionKey : String)
    (tr : SbTrace) : Except SbError (Option String) × SbTrace :=
  if product == "disbursement" || product == "remittance" || product == "collection" then
    let i := tr.tokPosts
    let tr1 := { tr with tokPosts := i + 1 }
    let st := o.tokStatus i
    if 400 ≤ st then (.error (.httpError st), tr1)
    else (.ok (o.tokAccess i), tr1)
  else (.error (.valueError product), tr)

/-- `Sandbox.get_token` (`sandbox.py` lines 124-142): create the api user,
generate the api key for `user['referenceId']`, exchange for a token, and
return `token_data['access_token']`.  Subscripting a `None` result raises
`TypeError`; a missing dict key raises `KeyError`; every raised exception
propagates. -/
def getToken (u : UuidSupply) (o : SbOracle) (subscriptionKey product : String)
    (tr : SbTrace) : Except SbError String × SbTrace :=
  match createApiUser u o tr with
  | (.error e, tr1) => (.error e, tr1)
  | (.ok none, tr1) => (.error .typeError, tr1)
  | (.ok (some rid), tr1) =>
    match generateApiKey o rid tr1 with
    | (.error e, tr2) => (.error e, tr2)
    | (.ok none, tr2) => (.error .keyError, tr2)
    | (.ok (some key), tr2) =>
      match generateToken o rid key product subscriptionKey tr2 with
      | (.error e, tr3) => (.error e, tr3)
      | (.ok none, tr3) => (.error .keyError, tr3)
      | (.ok (some tokv), tr3) => (.ok tokv, tr3)

/-- `Sandbox.validate_token` (`sandbox.py` lines 144-157): the placeholder
implementation — it returns `True` for every input. -/
def validateToken (token : String) : Bool :=
  true

/-- `Sandbox.get_valid_token` (`sandbox.py` lines 159-174): run `get_token`;
when `validate_token` rejects the result, run `get_token` a second time;
return the token. -/
def getValidToken (u : UuidSupply) (o : SbOracle) (subscriptionKey product : String)
    (tr : SbTrace) : Except SbError String × SbTrace :=
  match getToken u o subscriptionKey product tr with
  | (.error e, tr1) => (.error e, tr1)
  | (.ok tokv, tr1) =>
    if !validateToken tokv then getToken u o subscriptionKey product tr1
    else (.ok tokv, tr1)

end Sandbox

/-- `Sandbox.token_status` from the alternative implementation
`sandbox/sandbox_working.py` (lines 137-154): `False` when no expiry time is
recorded; otherwise `True` exactly when the expiry time is *greater than or
equal to* `datetime.now()` (note the non-strict comparison, unlike the
strict one in the `Base.token` property). -/
def sandboxWorkingTokenStatus (tokenExpiryTime : Option Nat) (now : Nat) : Bool :=
  match tokenExpiryTime with
  | none => false
  | some e => now ≤ e

/-! ## Concrete instances used by witnesses and counterexamples -/

/-- A fresh credential state: no token, no api user, no api key. -/
def stateNoCreds : BaseState :=
  { tok := none, tokenExpiryTime := none, apiUser := none, apiKey := none,
    subscriptionKey := some "sub123", apiUserProvided := false,
    baseUrl := "https://sandbox.momodeveloper.mtn.com", environment := "sandbox",
    callbackHost := "webhook.site", headers := [] }

/-- A state holding full credentials and a cached token valid until tick 100. -/
def stateCached : BaseState :=
  { stateNoCreds with
    apiUser := some "user-1"
    apiKey := some "abc"
    tok := some "tok1"
    tokenExpiryTime := some 100 }

/-- A deterministic uuid stream: the `i`-th `uuid4` is `u<i>`, the `i`-th
`uuid1` is `e<i>`. -/
def uuidsW : UuidSupply := ⟨fun n => "u" ++ toString n, fun n => "e" ++ toString n⟩

/-- Key endpoint that always answers 201 with key `"k"`. -/
def koW : KeyOracle := ⟨fun _ => 201, fun _ => some "k"⟩

/-- Token endpoint that always answers 200 with token `"tok1"`, expiring in 60s. -/
def tkoW : TokenOracle := ⟨fun _ => 200, fun _ => some "tok1", fun _ => 60⟩

/-- User endpoints that always answer 404 to GET and 201 to POST. -/
def uoW : UserOracle := ⟨fun _ => 404, fun _ => 201⟩

/-! ## Shared helper lemmas -/

/-- A non-empty string is not `isEmpty`. -/
theorem isEmpty_eq_false_of_ne (t : String) (h : t ≠ "") : t.isEmpty = false := by
  cases hb : t.isEmpty with
  | false => rfl
  | true => exact absurd ((String.isEmpty_iff t).mp hb) h

/-! ## Claim theorems -/

/-- C1: for every credential-manager state, the `Base.token` property read
returns the cached token value exactly when a (truthy, i.e. non-empty)
token and an expiry time are cached and the expiry lies strictly after the
current wall-clock time, and returns `None` otherwise; in particular a
token is reported available iff `now < expires_at`, so an expired token is
never reported. -/
theorem token_read_characterization (s : BaseState) (now : Nat) (t : String) :
    Base.token s now = some t ↔
      (s.tok = some t ∧ t ≠ "" ∧ ∃ e, s.tokenExpiryTime = some e ∧ now < e) := by
  unfold Base.token
  cases htok : s.tok with
  | none => simp
  | some t0 =>
    cases hexp : s.tokenExpiryTime with
    | none => simp
    | some e0 =>
      by_cases hne : t0 = ""
      · subst hne
        constructor
        · intro h
          simp [show ("".isEmpty) = true from rfl] at h
        · rintro ⟨h1, h2, -⟩
          injection h1 with h1
          exact absurd h1.symm h2
      · by_cases hlt : now < e0
        · simp [isEmpty_eq_false_of_ne t0 hne, hlt]
          rintro rfl
          exact hne
        · simp [isEmpty_eq_false_of_ne t0 hne, hlt]

/-- C10: constructing `Base` with a (truthy) token argument sets the
`Authorization: Bearer <token>` header, yet the `token` property returns
`None` at every subsequent read because no expiry time is recorded at
construction; and in general the `token` property returns `None` whenever
the cached expiry time is absent, whatever the cached token value. -/
theorem init_token_header_but_token_read_none :
    (∀ (tokv : String) (kw : InitKwargs) (now : Nat), tokv ≠ "" →
      ("Authorization", some ("Bearer " ++ tokv)) ∈ (Base.init (some tokv) kw).headers ∧
      Base.token (Base.init (some tokv) kw) now = none) ∧
    (∀ (s : BaseState) (now : Nat), s.tokenExpiryTime = none →
      Base.token s now = none) := by
  constructor
  · intro tokv kw now hne
    constructor
    · unfold Base.init
      simp [strTruthy, isEmpty_eq_false_of_ne tokv hne, pyStr]
    · unfold Base.init Base.token
      simp
  · intro s now h
    unfold Base.token
    rw [h]
    cases s.tok <;> rfl

/-- Witness for C10 at `token = "tk"`, empty kwargs, `now = 5`. -/
theorem init_token_header_but_token_read_none_witness :
    (("Authorization", some ("Bearer " ++ "tk")) ∈ (Base.init (some "tk") {}).headers ∧
      Base.token (Base.init (some "tk") {}) 5 = none) ∧
    Base.token (Base.init (some "tk") {}) 7 = none :=
  ⟨init_token_header_but_token_read_none.1 "tk" {} 5 (by decide),
   (init_token_header_but_token_read_none.1 "tk" {} 7 (by decide)).2⟩

/-- C8: with the required prior credential absent, the next lifecycle step
fails and performs no network call: `Base._create_api_key` with a falsy
`api_user` returns `False` leaving state and trace untouched, and
`Base._generate_token` with `api_user` or `api_key` falsy returns `None`
leaving state and trace untouched. -/
theorem prerequisite_missing_no_network (ko : KeyOracle) (tko : TokenOracle)
    (sub prod : String) (now : Nat) (s : BaseState) (tr : NetTrace) :
    (strTruthy s.apiUser = false → Base.createApiKey ko s tr = (false, s, tr)) ∧
    (strTruthy s.apiUser = false ∨ strTruthy s.apiKey = false →
      Base.generateToken tko sub prod now s tr = (none, s, tr)) := by
  constructor
  · intro h
    unfold Base.createApiKey
    simp [h]
  · intro h
    unfold Base.generateToken
    rcases h with h | h <;> simp [h]

/-- Witness for C8 at a state with no api user and no api key. -/
theorem prerequisite_missing_no_network_witness :
    Base.createApiKey koW stateNoCreds {} = (false, stateNoCreds, {}) ∧
    Base.generateToken tkoW "sub123" "collection" 0 stateNoCreds {} =
      (none, stateNoCreds, {}) :=
  ⟨(prerequisite_missing_no_network koW tkoW "sub123" "collection" 0 stateNoCreds {}).1 rfl,
   (prerequisite_missing_no_network koW tkoW "sub123" "collection" 0 stateNoCreds {}).2
     (Or.inl rfl)⟩

/-- C5: when the token endpoint answers 200 with an `access_token` and an
`expires_in`, `Base._generate_token` returns the token and sets the cached
expiry to the issue moment plus exactly `expires_in` seconds; consequently,
for a (non-empty) token issued at `T` with `expires_in = 60`, the cache
reports the token at `T + 59` and reports none at `T + 61`. -/
theorem generate_token_expiry_exact (o : TokenOracle) (sub prod : String)
    (T : Nat) (s : BaseState) (tr : NetTrace) (tokv : String)
    (hu : strTruthy s.apiUser = true) (hk : strTruthy s.apiKey = true)
    (hst : o.status tr.tokenPosts = 200)
    (hat : o.accessTok tr.tokenPosts = some tokv) (hne : tokv ≠ "") :
    (Base.generateToken o sub prod T s tr).1 = some tokv ∧
    ((Base.generateToken o sub prod T s tr).2.1).tokenExpiryTime
      = some (T + o.expiresIn tr.tokenPosts) ∧
    (o.expiresIn tr.tokenPosts = 60 →
      Base.token (Base.generateToken o sub prod T s tr).2.1 (T + 59) = some tokv ∧
      Base.token (Base.generateToken o sub prod T s tr).2.1 (T + 61) = none) := by
  have hres : (Base.generateToken o sub prod T s tr).1 = some tokv := by
    unfold Base.generateToken
    simp [hu, hk, hst, hat]
  have hstate : (Base.generateToken o sub prod T s tr).2.1
      = { s with
          tok := some tokv
          tokenExpiryTime := some (T + o.expiresIn tr.tokenPosts) } := by
    unfold Base.generateToken
    simp [hu, hk, hst, hat]
  refine ⟨hres, by rw [hstate], fun h60 => ?_⟩
  rw [hstate, h60]
  unfold Base.token
  constructor
  · simp [isEmpty_eq_false_of_ne tokv hne]
  · simp [isEmpty_eq_false_of_ne tokv hne]

/-- Witness for C5: full credentials, token endpoint `tkoW` (200, `"tok1"`,
`expires_in = 60`), issued at `T = 40`. -/
theorem generate_token_expiry_exact_witness :
    (Base.generateToken tkoW "sub123" "collection" 40 stateCached {}).1 = some "tok1" ∧
    ((Base.generateToken tkoW "sub123" "collection" 40 stateCached {}).2.1).tokenExpiryTime
      = some (40 + tkoW.expiresIn 0) ∧
    (tkoW.expiresIn 0 = 60 →
      Base.token (Base.generateToken tkoW "sub123" "collection" 40 stateCached {}).2.1 99
        = some "tok1" ∧
      Base.token (Base.generateToken tkoW "sub123" "collection" 40 stateCached {}).2.1 101
        = none) :=
  generate_token_expiry_exact tkoW "sub123" "collection" 40 stateCached {} "tok1"
    rfl rfl rfl rfl (by decide)

/-- C4: in every state with a (truthy) cached `api_key`,
`Base._create_api_key` leaves the state and trace untouched (no
key-generation request, key unchanged) — returning `True` whenever the api
user prerequisite holds — and this persists over any number of repeated
calls; moreover `Base._generate_token` never modifies the cached `api_key`,
whatever the product. -/
theorem api_key_non_rotation (ko : KeyOracle) (tko : TokenOracle)
    (sub : String) (now : Nat) (s : BaseState) (tr : NetTrace)
    (hk : strTruthy s.apiKey = true) :
    (Base.createApiKey ko s tr).2 = (s, tr) ∧
    (strTruthy s.apiUser = true → Base.createApiKey ko s tr = (true, s, tr)) ∧
    (∀ n, Base.createApiKeyIter ko n (s, tr) = (s, tr)) ∧
    (∀ prod, ((Base.generateToken tko sub prod now s tr).2.1).apiKey = s.apiKey) := by
  have hfix : (Base.createApiKey ko s tr).2 = (s, tr) := by
    unfold Base.createApiKey
    by_cases hu : strTruthy s.apiUser
    · simp [hu, hk]
    · simp [hu]
  refine ⟨hfix, ?_, ?_, ?_⟩
  · intro hu
    unfold Base.createApiKey
    simp [hu, hk]
  · intro n
    induction n with
    | zero => rfl
    | succ m ih =>
      have h2 : (Base.createApiKey ko s tr).2.1 = s := congrArg Prod.fst hfix
      have h3 : (Base.createApiKey ko s tr).2.2 = tr := congrArg Prod.snd hfix
      have hstep : Base.createApiKeyIter ko (m + 1) (s, tr)
          = Base.createApiKeyIter ko m
              ((Base.createApiKey ko s tr).2.1, (Base.createApiKey ko s tr).2.2) := rfl
      rw [hstep, h2, h3]
      exact ih
  · intro prod
    unfold Base.generateToken
    by_cases hc : (strTruthy s.apiUser && strTruthy s.apiKey) = true
    · simp only [hc, Bool.not_true, Bool.false_eq_true, if_false]
      split <;> rfl
    · simp only [Bool.not_eq_true] at hc
      simp [hc]

/-- Witness for C4 at a state caching `api_key = "abc"`. -/
theorem api_key_non_rotation_witness :
    (Base.createApiKey koW stateCached {}).2 = (stateCached, {}) ∧
    Base.createApiKey koW stateCached {} = (true, stateCached, {}) ∧
    Base.createApiKeyIter koW 3 (stateCached, {}) = (stateCached, {}) ∧
    ((Base.generateToken tkoW "sub123" "disbursement" 0 stateCached {}).2.1).apiKey
      = stateCached.apiKey :=
  ⟨(api_key_non_rotation koW tkoW "sub123" 0 stateCached {} rfl).1,
   (api_key_non_rotation koW tkoW "sub123" 0 stateCached {} rfl).2.1 rfl,
   (api_key_non_rotation koW tkoW "sub123" 0 stateCached {} rfl).2.2.1 3,
   (api_key_non_rotation koW tkoW "sub123" 0 stateCached {} rfl).2.2.2 "disbursement"⟩

/-- C2: in every state caching a still-valid token (and holding a usable
subscription key), two immediately consecutive calls of the ensure-token
operation `Collection.generate_collection_token` with no elapsed time both
return the identical cached token value and leave the state and the network
trace untouched — zero additional user-creation, key-generation or
token-exchange calls. -/
theorem ensure_token_idempotent_reuse (u : UuidSupply) (uo : UserOracle)
    (ko : KeyOracle) (tko : TokenOracle) (now : Nat) (subArg : Option String)
    (fuel : Nat) (s : BaseState) (tr : NetTrace)
    (hsub : strTruthy (if strTruthy subArg then subArg else s.subscriptionKey) = true)
    (ht : strTruthy s.tok = true) (hv : (Base.token s now).isSome = true) :
    Collection.generateCollectionTokenTwice u uo ko tko now subArg fuel s tr =
      some (.ok s.tok, .ok s.tok, s, tr) := by
  have h1 : Collection.generateCollectionToken u uo ko tko now subArg fuel s tr
      = some (.ok s.tok, s, tr) := by
    unfold Collection.generateCollectionToken
    simp [hsub, ht, hv]
  unfold Collection.generateCollectionTokenTwice
  rw [h1]
  simp [h1]

/-- Witness for C2: state caching token `"tok1"` valid until tick 100, read
at tick 50. -/
theorem ensure_token_idempotent_reuse_witness :
    Collection.generateCollectionTokenTwice uuidsW uoW koW tkoW 50 none 5 stateCached {} =
      some (.ok (some "tok1"), .ok (some "tok1"), stateCached, {}) :=
  ensure_token_idempotent_reuse uuidsW uoW koW tkoW 50 none 5 stateCached {}
    (by decide) (by decide) (by decide)

/-- Request-to-pay endpoint that always answers 202. -/
def rtpoW : RtpOracle := ⟨fun _ => 202, fun _ => ""⟩

/-- C6: every `create_request_to_pay` call draws a fresh `uuid4` from the
supply and attaches it as the `X-Reference-Id` header, so two consecutive
calls attach the supply values at consecutive indices — distinct whenever
the supply never repeats — while the read-only `get_account_balance`
request carries no `X-Reference-Id` header at all. -/
theorem mutating_reference_id_fresh (u : UuidSupply) (o : RtpOracle)
    (now1 now2 : Nat) (m1 a1 m2 a2 : String) (subArg cb : Option String)
    (s1 s2 : BaseState) (tr : NetTrace)
    (hfresh : u.uuid4 tr.uuid4s ≠ u.uuid4 (tr.uuid4s + 1)) :
    ((Collection.createRequestToPay u o now1 m1 a1 subArg cb s1 tr).2.1.lookup
        "X-Reference-Id" = some (some (u.uuid4 tr.uuid4s))) ∧
    ((Collection.createRequestToPay u o now2 m2 a2 subArg cb s2
        (Collection.createRequestToPay u o now1 m1 a1 subArg cb s1 tr).2.2).2.1.lookup
        "X-Reference-Id" = some (some (u.uuid4 (tr.uuid4s + 1)))) ∧
    u.uuid4 tr.uuid4s ≠ u.uuid4 (tr.uuid4s + 1) ∧
    (∀ (s3 : BaseState) (now3 : Nat),
      (Collection.getAccountBalanceHeaders s3 now3).lookup "X-Reference-Id" = none) := by
  refine ⟨?_, ?_, hfresh, ?_⟩
  · unfold Collection.createRequestToPay
    split <;> simp [List.lookup]
  · unfold Collection.createRequestToPay
    split <;> split <;> simp [List.lookup]
  · intro s3 now3
    unfold Collection.getAccountBalanceHeaders
    simp [List.lookup]

/-- Witness for C6: deterministic supply `uuidsW` (whose values `u0`, `u1`
at indices 0 and 1 differ), two consecutive request-to-pay calls from a
fresh trace, and a balance read. -/
theorem mutating_reference_id_fresh_witness :
    ((Collection.createRequestToPay uuidsW rtpoW 50 "233423" "100" none none
        stateCached {}).2.1.lookup "X-Reference-Id" = some (some (uuidsW.uuid4 0))) ∧
    ((Collection.createRequestToPay uuidsW rtpoW 50 "233424" "200" none none
        stateCached
        (Collection.createRequestToPay uuidsW rtpoW 50 "233423" "100" none none
          stateCached {}).2.2).2.1.lookup "X-Reference-Id"
      = some (some (uuidsW.uuid4 1))) ∧
    uuidsW.uuid4 0 ≠ uuidsW.uuid4 1 ∧
    (Collection.getAccountBalanceHeaders stateCached 50).lookup "X-Reference-Id" = none :=
  ⟨(mutating_reference_id_fresh uuidsW rtpoW 50 50 "233423" "100" "233424" "200"
      none none stateCached stateCached {} (by decide)).1,
   (mutating_reference_id_fresh uuidsW rtpoW 50 50 "233423" "100" "233424" "200"
      none none stateCached stateCached {} (by decide)).2.1,
   (mutating_reference_id_fresh uuidsW rtpoW 50 50 "233423" "100" "233424" "200"
      none none stateCached stateCached {} (by decide)).2.2.1,
   (mutating_reference_id_fresh uuidsW rtpoW 50 50 "233423" "100" "233424" "200"
      none none stateCached stateCached {} (by decide)).2.2.2 stateCached 50⟩

/-- Request-to-pay endpoint that always answers 500 with the
`INVALID_CALLBACK_URL_HOST` message body. -/
def rtpo500 : RtpOracle :=
  ⟨fun _ => 500, fun _ => "An internal error occurred ... INVALID_CALLBACK_URL_HOST"⟩

/-- C7 counterexample: a transport call answered 500 with an
`INVALID_CALLBACK_URL_HOST` body makes `create_request_to_pay` return the
Python `None` — the failure is swallowed into a `None` return (the function
has no raise path for remote errors: every branch returns a value), so no
typed API error carrying the status and body is surfaced, contradicting the
claim as stated. -/
theorem dispatcher_swallows_500_into_none :
    (Collection.createRequestToPay uuidsW rtpo500 50 "233423" "100" none none
      stateCached {}).1 = none := by
  decide

/-- C7 amended: on every non-202 status the collection dispatcher prints a
diagnostic and returns `None` (never a typed `MoMoAPIError`). -/
theorem dispatcher_returns_none_on_non_202 (u : UuidSupply) (o : RtpOracle)
    (now : Nat) (m a : String) (subArg cb : Option String) (s : BaseState)
    (tr : NetTrace) (h : o.status tr.rtpPosts ≠ 202) :
    (Collection.createRequestToPay u o now m a subArg cb s tr).1 = none := by
  unfold Collection.createRequestToPay
  simp [h]

/-- Witness for the C7 amended theorem at the 500-answering endpoint with a
callback URL supplied. -/
theorem dispatcher_returns_none_on_non_202_witness :
    (Collection.createRequestToPay uuidsW rtpo500 60 "23342399" "250" none
      (some "https://example.test/cb") stateCached {}).1 = none :=
  dispatcher_returns_none_on_non_202 uuidsW rtpo500 60 "23342399" "250" none
    (some "https://example.test/cb") stateCached {} (by decide)

/-- User endpoints answering 404 to every existence GET and 409, 409, 201
to the successive creation POSTs. -/
def uoConflict : UserOracle := ⟨fun _ => 404, fun n => if n < 2 then 409 else 201⟩

/-- User endpoints answering 404 to every existence GET and 409 to every
creation POST. -/
def uoConflictLoop : UserOracle := ⟨fun _ => 404, fun _ => 409⟩

/-- A state whose api user `"given"` was caller-supplied. -/
def stateProvided : BaseState :=
  { stateNoCreds with
    apiUser := some "given"
    apiUserProvided := true }

/-- C3 helper: with a truthy, non-caller-supplied api user, against
endpoints that keep answering 404 to the existence GET and 409 to the
creation POST, `Base._create_api_user` recurses until the fuel runs out —
i.e. the Python original recurses without bound. -/
theorem createApiUser_conflict_loop_aux (fuel : Nat) :
    ∀ (s : BaseState) (tr : NetTrace), strTruthy s.apiUser = true →
      s.apiUserProvided = false →
      Base.createApiUser uuidsW uoConflictLoop "sub123" fuel s tr = none := by
  induction fuel with
  | zero => intro s tr _ _; rfl
  | succ n ih =>
    intro s tr hu hp
    unfold Base.createApiUser Base.createApiUserPre Base.checkApiUserExists
    simp [hu, hp, uoConflictLoop]
    exact ih _ _ hu hp

/-- C3: against a remote that reports 409 on creation, `_create_api_user`
behaves as follows.  (i) With no caller-supplied id and POST statuses
409, 409, 201 it succeeds after POSTing the reference id `u0` three times —
the "retry" re-enters the method with `self._api_user` still set to the
conflicting UUID, so no new UUID is generated and more than one retry
happens.  (ii) With a caller-supplied id and a 409 answer it fails
terminally after exactly one POST of that id.  (iii) With no caller-supplied
id and persistent 409s the recursion never terminates (it exhausts any
fuel). -/
theorem create_api_user_conflict_retry_behavior :
    ((Base.createApiUser uuidsW uoConflict "sub123" 5 stateNoCreds {}).map
        (fun r => (r.1, r.2.2.postedRefIds)) = some (true, ["u0", "u0", "u0"])) ∧
    ((Base.createApiUser uuidsW uoConflictLoop "sub123" 5 stateProvided {}).map
        (fun r => (r.1, r.2.2.postedRefIds)) = some (false, ["given"])) ∧
    (∀ fuel, Base.createApiUser uuidsW uoConflictLoop "sub123" fuel stateNoCreds {} = none) := by
  refine ⟨by decide, by decide, ?_⟩
  intro fuel
  cases fuel with
  | zero => rfl
  | succ n =>
    unfold Base.createApiUser Base.createApiUserPre
    simp [stateNoCreds, strTruthy, uoConflictLoop, uuidsW]
    exact createApiUser_conflict_loop_aux n _ _ rfl rfl

/-- Sandbox endpoints that always succeed: user creation 201, key
generation 200 with key `"abc"`, token exchange 200 with `"tok1"`. -/
def sboW : SbOracle :=
  ⟨fun _ => 201, fun _ => 200, fun _ => some "abc", fun _ => 200, fun _ => some "tok1"⟩

/-- C9: `Sandbox.validate_token` returns `True` for every input, hence
`Sandbox.get_valid_token` coincides with `Sandbox.get_token` on every input
(the regeneration branch is unreachable); and on a succeeding remote a
`get_valid_token` call performs exactly one provisioning sequence — one
user-creation POST, one key-generation POST and one token-exchange POST —
returning the exchanged token. -/
theorem sandbox_validate_stub_single_provisioning (u : UuidSupply) (o : SbOracle)
    (sub product : String) (tr : SbTrace) (k tokv : String)
    (h1 : o.createUserStatus tr.userPosts = 201)
    (h2 : o.keyStatus tr.keyPosts < 400)
    (h3 : o.keyApiKey tr.keyPosts = some k)
    (h4 : o.tokStatus tr.tokPosts < 400)
    (h5 : o.tokAccess tr.tokPosts = some tokv)
    (hprod : (product == "disbursement" || product == "remittance"
      || product == "collection") = true) :
    (∀ t0 : String, Sandbox.validateToken t0 = true) ∧
    (∀ (u2 : UuidSupply) (o2 : SbOracle) (sub2 p2 : String) (tr2 : SbTrace),
      Sandbox.getValidToken u2 o2 sub2 p2 tr2 = Sandbox.getToken u2 o2 sub2 p2 tr2) ∧
    Sandbox.getValidToken u o sub product tr =
      (.ok tokv,
        { uuid4s := tr.uuid4s + 1, userPosts := tr.userPosts + 1,
          keyPosts := tr.keyPosts + 1, tokPosts := tr.tokPosts + 1 }) := by
  have hval : ∀ t0 : String, Sandbox.validateToken t0 = true := fun _ => rfl
  have heq : ∀ (u2 : UuidSupply) (o2 : SbOracle) (sub2 p2 : String) (tr2 : SbTrace),
      Sandbox.getValidToken u2 o2 sub2 p2 tr2 = Sandbox.getToken u2 o2 sub2 p2 tr2 := by
    intro u2 o2 sub2 p2 tr2
    unfold Sandbox.getValidToken
    rcases hgt : Sandbox.getToken u2 o2 sub2 p2 tr2 with ⟨e | t, tr1⟩ <;>
      simp [Sandbox.validateToken]
  refine ⟨hval, heq, ?_⟩
  rw [heq]
  have hn1 : ¬ 400 ≤ o.createUserStatus tr.userPosts := by omega
  have hn2 : ¬ 400 ≤ o.keyStatus tr.keyPosts := by omega
  have hn4 : ¬ 400 ≤ o.tokStatus tr.tokPosts := by omega
  unfold Sandbox.getToken Sandbox.createApiUser Sandbox.generateApiKey
    Sandbox.generateToken
  simp [hn1, hn2, hn4, h1, h3, h5, hprod]

/-- Witness for C9 at the always-succeeding sandbox endpoints, product
`"collection"`, starting from a fresh trace. -/
theorem sandbox_validate_stub_single_provisioning_witness :
    Sandbox.validateToken "x" = true ∧
    Sandbox.getValidToken uuidsW sboW "sub123" "remittance" {} =
      Sandbox.getToken uuidsW sboW "sub123" "remittance" {} ∧
    Sandbox.getValidToken uuidsW sboW "sub123" "collection" {} =
      (.ok "tok1", { uuid4s := 1, userPosts := 1, keyPosts := 1, tokPosts := 1 }) :=
  ⟨(sandbox_validate_stub_single_provisioning uuidsW sboW "sub123" "collection" {}
      "abc" "tok1" rfl (by decide) rfl (by decide) rfl (by decide)).1 "x",
   (sandbox_validate_stub_single_provisioning uuidsW sboW "sub123" "collection" {}
      "abc" "tok1" rfl (by decide) rfl (by decide) rfl (by decide)).2.1
      uuidsW sboW "sub123" "remittance" {},
   (sandbox_validate_stub_single_provisioning uuidsW sboW "sub123" "collection" {}
      "abc" "tok1" rfl (by decide) rfl (by decide) rfl (by decide)).2.2⟩
